import Mathlib

/-!
Shallow embedding of the HbarSuite throttler-types package
(src/interfaces/throttler.namespace.ts, src/models/throttler.namespace.ts,
src/index.ts) together with a model of the configuration resolution
contract its specification describes.  The package itself is declarations
only; the resolver that consumes these declarations is not part of the
repository, so it is modelled from the specification and each such
definition is marked accordingly in its doc comment.
-/

namespace IThrottler

/-- Runtime value of the member REDIS of the TypeScript enum
IThrottler.IStorage (source lines 67 to 70); a TypeScript string enum
member is, at runtime, its declared string constant. -/
def IStorage.REDIS : String := "redis"

/-- Runtime value of the member DEFAULT of the TypeScript enum
IThrottler.IStorage (source lines 67 to 70). -/
def IStorage.DEFAULT : String := "default"

/-- A storage value is recognized when it is one of the two members of the
closed enumeration.  The storage field is embedded at its runtime string
representation so that unrecognized values, which the validation contract
must reject, remain expressible. -/
def isRecognizedStorage (s : String) : Bool :=
  s == IStorage.REDIS || s == IStorage.DEFAULT

/-- The settings field of IThrottler.IOptions (source lines 102 to 105):
ttl and limit are TypeScript numbers; they are embedded as integers since
every claim about them concerns only their sign. -/
structure ISettings where
  ttl : Int
  limit : Int
deriving DecidableEq, Repr

/-- The redis field type RedisClientOptions and Config (from the redis and
cache-manager packages): the contract treats it as an opaque bag of
connection fields; the two fields the repository examples use, host and
port, are embedded, both optional, which suffices to distinguish bags. -/
structure RedisConfig where
  host : Option String := none
  port : Option Nat := none
deriving DecidableEq, Repr

/-- IThrottler.IOptions (source lines 100 to 108): the resolved concrete
configuration.  Every field is required, in particular redis, whatever the
storage selection. -/
structure IOptions where
  enabled : Bool
  settings : ISettings
  storage : String
  redis : RedisConfig
deriving DecidableEq, Repr

/-- Opaque reference to a class, the Nest Type of the source; only its
identity matters to the contract. -/
structure TypeRef where
  id : Nat
deriving DecidableEq, Repr

/-- Opaque dependency identifier, an entry of the inject list. -/
structure DepToken where
  id : Nat
deriving DecidableEq, Repr

/-- Opaque resolved dependency value supplied by the host. -/
structure DepValue where
  id : Nat
deriving DecidableEq, Repr

/-- IThrottler.IOptionsFactory (source lines 139 to 141): an object whose
producing call createThrottlerOptions yields an IOptions, possibly
asynchronously; the deferred layer is collapsed and a throw or rejection
is embedded as the error case carrying its underlying cause. -/
structure IOptionsFactory where
  createThrottlerOptions : Except String IOptions

/-- The useFactory field type (source line 198): a function taking the
resolved dependency values and returning an IOptions or failing. -/
abbrev FactoryFn : Type := List DepValue → Except String IOptions

/-- IThrottler.IModuleAsyncOptions (source lines 177 to 206): every field
is optional.  The imports field inherited from ModuleMetadata is embedded
as an opaque list of module references; it plays no part in resolution. -/
structure IModuleAsyncOptions where
  imports : Option (List TypeRef) := none
  useExisting : Option (List TypeRef) := none
  useClass : Option TypeRef := none
  useFactory : Option FactoryFn := none
  inject : Option (List DepToken) := none

/-- Modelled from the spec: the dependency resolution host of section 6 is
an external collaborator, absent from this repository.  It supplies
constructed factory instances for useExisting, constructs instances for
useClass, and resolves the concrete argument values named by inject; each
lookup either returns an initialized value or fails with a cause. -/
structure Host where
  lookup : TypeRef → Except String IOptionsFactory
  instantiate : TypeRef → Except String IOptionsFactory
  resolveDep : DepToken → Except String DepValue

/-- Modelled from the spec: the failure taxonomy of section 7, absent from
this repository.  FactoryInstantiationFailed wraps the underlying cause
and InvalidOptions carries which field failed. -/
inductive ResolveError where
  | MissingSource : ResolveError
  | AmbiguousSource : ResolveError
  | FactoryInstantiationFailed : String → ResolveError
  | InvalidOptions : String → ResolveError
deriving DecidableEq, Repr

/-- Modelled from the spec: the structural validation step of section 4.1,
absent from this repository.  It runs once on the produced value: a non
positive ttl or limit, or an unrecognized storage, fails with
InvalidOptions naming the offending field; otherwise the value is returned
unchanged. -/
def validate (o : IOptions) : Except ResolveError IOptions :=
  if o.settings.ttl ≤ 0 then
    Except.error (ResolveError.InvalidOptions ("ttl"))
  else if o.settings.limit ≤ 0 then
    Except.error (ResolveError.InvalidOptions ("limit"))
  else if isRecognizedStorage o.storage then
    Except.ok o
  else
    Except.error (ResolveError.InvalidOptions ("storage"))

/-- Modelled from the spec: all or nothing resolution of a dependency list
by the host, as required by section 4.1 for the useFactory path. -/
def resolveDeps (host : Host) : List DepToken → Except String (List DepValue)
  | [] => Except.ok []
  | t :: ts =>
    match host.resolveDep t with
    | Except.error c => Except.error c
    | Except.ok v =>
      match resolveDeps host ts with
      | Except.error c => Except.error c
      | Except.ok vs => Except.ok (v :: vs)

/-- Modelled from the spec: the ConfigResolver of section 4.1 over the
async options shape; the repository declares only the types, the resolver
lives in the consuming package.  Zero variants fail with MissingSource and
more than one with AmbiguousSource, the policy the spec recommends; a sole
factory variant is driven through the host and its producing call, a
failure anywhere being wrapped as FactoryInstantiationFailed; the produced
value is validated once before being returned.  The useExisting field is,
per the source, an array of factory types; the spec does not fix the
handling of several entries, so the model uses the first listed type and
treats an empty list as naming no source. -/
def resolveAsync (host : Host) (cfg : IModuleAsyncOptions) :
    Except ResolveError IOptions :=
  match cfg.useExisting, cfg.useClass, cfg.useFactory with
  | none, none, none => Except.error ResolveError.MissingSource
  | some ts, none, none =>
    match ts with
    | [] => Except.error ResolveError.MissingSource
    | t :: _ =>
      match host.lookup t with
      | Except.error c => Except.error (ResolveError.FactoryInstantiationFailed c)
      | Except.ok f =>
        match f.createThrottlerOptions with
        | Except.error c => Except.error (ResolveError.FactoryInstantiationFailed c)
        | Except.ok o => validate o
  | none, some t, none =>
    match host.instantiate t with
    | Except.error c => Except.error (ResolveError.FactoryInstantiationFailed c)
    | Except.ok f =>
      match f.createThrottlerOptions with
      | Except.error c => Except.error (ResolveError.FactoryInstantiationFailed c)
      | Except.ok o => validate o
  | none, none, some fn =>
    match resolveDeps host (cfg.inject.getD []) with
    | Except.error c => Except.error (ResolveError.FactoryInstantiationFailed c)
    | Except.ok args =>
      match fn args with
      | Except.error c => Except.error (ResolveError.FactoryInstantiationFailed c)
      | Except.ok o => validate o
  | _, _, _ => Except.error ResolveError.AmbiguousSource

/-- The two ways the source contract supplies configuration: a static
IOptions value, or the async options shape. -/
inductive OptionsInput where
  | staticOpts : IOptions → OptionsInput
  | asyncOpts : IModuleAsyncOptions → OptionsInput

/-- Modelled from the spec: the full resolution entry point of section
4.1.  A static value is validated directly; an async shape goes through
resolveAsync. -/
def resolve (host : Host) : OptionsInput → Except ResolveError IOptions
  | OptionsInput.staticOpts o => validate o
  | OptionsInput.asyncOpts cfg => resolveAsync host cfg

/-- Number of configuration variants supplied on an async options shape;
inject is a dependency list for useFactory, not a variant. -/
def variantCount (cfg : IModuleAsyncOptions) : Nat :=
  (if cfg.useExisting.isSome then 1 else 0) +
  (if cfg.useClass.isSome then 1 else 0) +
  (if cfg.useFactory.isSome then 1 else 0)

/-- Formalization of the single handle reading of the useExisting variant:
whenever the field is present it references exactly one factory. -/
def referencesOneFactory (cfg : IModuleAsyncOptions) : Prop :=
  ∀ l, cfg.useExisting = some l → l.length = 1

/-- The static options of concrete scenario A of the spec: enabled, ttl
60, limit 100, default storage, empty redis bag. -/
def scenarioA : IOptions :=
  { enabled := true
    settings := { ttl := 60, limit := 100 }
    storage := IStorage.DEFAULT
    redis := {} }

/-- The static options of concrete scenario B of the spec with the enabled
flag turned off: ttl 60, limit 0, redis storage, localhost connection. -/
def scenarioB : IOptions :=
  { enabled := false
    settings := { ttl := 60, limit := 0 }
    storage := IStorage.REDIS
    redis := { host := some ("localhost"), port := some 6379 } }

/-- A factory whose producing call succeeds with the scenario A options. -/
def goodFactory : IOptionsFactory :=
  { createThrottlerOptions := Except.ok scenarioA }

/-- A factory whose producing call succeeds with the scenario B options. -/
def factoryB : IOptionsFactory :=
  { createThrottlerOptions := Except.ok scenarioB }

/-- A factory whose producing call rejects with an underlying cause. -/
def failingFactory : IOptionsFactory :=
  { createThrottlerOptions := Except.error ("connection refused") }

/-- A host on which every lookup fails. -/
def emptyHost : Host :=
  { lookup := fun _ => Except.error ("no provider")
    instantiate := fun _ => Except.error ("no provider")
    resolveDep := fun _ => Except.error ("no provider") }

/-- A host on which every factory lookup yields the scenario B factory. -/
def hostB : Host :=
  { lookup := fun _ => Except.ok factoryB
    instantiate := fun _ => Except.ok factoryB
    resolveDep := fun _ => Except.error ("no provider") }

/-- A host on which every factory lookup yields the scenario A factory. -/
def hostGood : Host :=
  { lookup := fun _ => Except.ok goodFactory
    instantiate := fun _ => Except.ok goodFactory
    resolveDep := fun _ => Except.ok { id := 0 } }

/-- A host exercising every factory failure mode, keyed on the type
reference: lookup and instantiation fail on odd identifiers and otherwise
yield the rejecting factory; dependencies never resolve. -/
def hostFail : Host :=
  { lookup := fun t =>
      if t.id % 2 = 1 then Except.error ("no provider") else Except.ok failingFactory
    instantiate := fun t =>
      if t.id % 2 = 1 then Except.error ("ctor threw") else Except.ok failingFactory
    resolveDep := fun _ => Except.error ("dep missing") }

/-- Validation accepts exactly the options with positive ttl and limit and
a recognized storage, and returns them unchanged. -/
theorem validate_ok_iff (o o' : IOptions) :
    validate o = Except.ok o' ↔
      (o' = o ∧ 0 < o.settings.ttl ∧ 0 < o.settings.limit ∧
        isRecognizedStorage o.storage = true) := by
  unfold validate
  by_cases h1 : o.settings.ttl ≤ 0
  · simp [h1]
  · by_cases h2 : o.settings.limit ≤ 0
    · simp [h1, h2]
    · by_cases h3 : isRecognizedStorage o.storage
      · simp [h1, h2, h3, eq_comm]
        omega
      · simp [h1, h2, h3]

/-- Validation of an options value with non positive limit or ttl fails
with InvalidOptions. -/
theorem validate_invalid (o : IOptions)
    (h : o.settings.limit ≤ 0 ∨ o.settings.ttl ≤ 0) :
    ∃ f, validate o = Except.error (ResolveError.InvalidOptions f) := by
  unfold validate
  by_cases h1 : o.settings.ttl ≤ 0
  · exact ⟨"ttl", by simp [h1]⟩
  · have h2 : o.settings.limit ≤ 0 := by omega
    exact ⟨"limit", by simp [h1, h2]⟩

/-- Validation of an options value with an unrecognized storage fails with
InvalidOptions. -/
theorem validate_unrecognized (o : IOptions)
    (h : isRecognizedStorage o.storage = false) :
    ∃ f, validate o = Except.error (ResolveError.InvalidOptions f) := by
  unfold validate
  by_cases h1 : o.settings.ttl ≤ 0
  · exact ⟨"ttl", by simp [h1]⟩
  · by_cases h2 : o.settings.limit ≤ 0
    · exact ⟨"limit", by simp [h1, h2]⟩
    · exact ⟨"storage", by simp [h1, h2, h]⟩

/-- C1: for every static input whose limit and ttl are positive and whose
storage is a recognized member of the enumeration, resolution succeeds and
returns exactly that options value, unchanged in every field. -/
theorem static_valid_resolves_unchanged (host : Host) (o : IOptions)
    (hl : 0 < o.settings.limit) (ht : 0 < o.settings.ttl)
    (hs : isRecognizedStorage o.storage = true) :
    resolve host (OptionsInput.staticOpts o) = Except.ok o := by
  show validate o = Except.ok o
  exact (validate_ok_iff o o).mpr ⟨rfl, ht, hl, hs⟩

/-- C1 witness: scenario A resolves to its exact input. -/
theorem static_valid_resolves_unchanged_witness :
    resolve emptyHost (OptionsInput.staticOpts scenarioA) = Except.ok scenarioA :=
  static_valid_resolves_unchanged emptyHost scenarioA (by decide) (by decide)
    (by decide)

/-- C10: the storage enumeration consists of exactly the two distinct
string constants redis and default. -/
theorem storage_enum_values :
    IStorage.REDIS = "redis" ∧ IStorage.DEFAULT = "default" ∧
      IStorage.REDIS ≠ IStorage.DEFAULT :=
  ⟨rfl, rfl, by decide⟩

/-- C2: a produced options value with non positive limit or ttl is
rejected with InvalidOptions whatever source variant produced it, the
enabled flag playing no part: the statement never inspects it. -/
theorem invalid_settings_rejected (host : Host) (o : IOptions)
    (h : o.settings.limit ≤ 0 ∨ o.settings.ttl ≤ 0) :
    (∃ f, resolve host (OptionsInput.staticOpts o) =
        Except.error (ResolveError.InvalidOptions f)) ∧
    (∀ t fct rest, host.lookup t = Except.ok fct →
      fct.createThrottlerOptions = Except.ok o →
      ∃ f, resolveAsync host { useExisting := some (t :: rest) } =
        Except.error (ResolveError.InvalidOptions f)) ∧
    (∀ t fct, host.instantiate t = Except.ok fct →
      fct.createThrottlerOptions = Except.ok o →
      ∃ f, resolveAsync host { useClass := some t } =
        Except.error (ResolveError.InvalidOptions f)) ∧
    (∀ fn : FactoryFn, fn [] = Except.ok o →
      ∃ f, resolveAsync host { useFactory := some fn } =
        Except.error (ResolveError.InvalidOptions f)) := by
  refine ⟨validate_invalid o h, ?_, ?_, ?_⟩
  · intro t fct rest h1 h2
    simpa [resolveAsync, h1, h2] using validate_invalid o h
  · intro t fct h1 h2
    simpa [resolveAsync, h1, h2] using validate_invalid o h
  · intro fn h1
    simpa [resolveAsync, resolveDeps, h1] using validate_invalid o h

/-- C2 witness: scenario B with the enabled flag off fails with
InvalidOptions both as a static input and through an existing factory
producing it. -/
theorem invalid_settings_rejected_witness :
    (∃ f, resolve hostB (OptionsInput.staticOpts scenarioB) =
        Except.error (ResolveError.InvalidOptions f)) ∧
    (∃ f, resolveAsync hostB { useExisting := some [TypeRef.mk 0] } =
        Except.error (ResolveError.InvalidOptions f)) := by
  have h := invalid_settings_rejected hostB scenarioB (Or.inl (by decide))
  exact ⟨h.1, h.2.1 (TypeRef.mk 0) factoryB [] rfl rfl⟩

/-- C3: the configuration supplying none of useExisting, useClass and
useFactory is representable, every field of the async options shape being
optional, and resolving it fails with MissingSource. -/
theorem no_source_fails_missing (host : Host) :
    ({} : IModuleAsyncOptions).useExisting = none ∧
    ({} : IModuleAsyncOptions).useClass = none ∧
    ({} : IModuleAsyncOptions).useFactory = none ∧
    ({} : IModuleAsyncOptions).inject = none ∧
    ({} : IModuleAsyncOptions).imports = none ∧
    resolveAsync host {} = Except.error ResolveError.MissingSource :=
  ⟨rfl, rfl, rfl, rfl, rfl, rfl⟩

/-- C4: supplying two or more configuration variants at once fails with
AmbiguousSource; no variant is silently preferred. -/
theorem two_variants_ambiguous (host : Host) (cfg : IModuleAsyncOptions)
    (h : 2 ≤ variantCount cfg) :
    resolveAsync host cfg = Except.error ResolveError.AmbiguousSource := by
  rcases cfg with ⟨imp, ue, uc, uf, inj⟩
  cases ue <;> cases uc <;> cases uf <;>
    first
      | rfl
      | (exfalso; simp [variantCount] at h)

/-- C4 witness: a configuration with both useClass and useFactory set
fails with AmbiguousSource. -/
theorem two_variants_ambiguous_witness :
    resolveAsync emptyHost
      { useClass := some (TypeRef.mk 1)
        useFactory := some (fun _ => Except.ok scenarioA) } =
      Except.error ResolveError.AmbiguousSource :=
  two_variants_ambiguous emptyHost
    { useClass := some (TypeRef.mk 1)
      useFactory := some (fun _ => Except.ok scenarioA) }
    (by decide)

/-- C5: every factory based path that fails, whether by a failing lookup,
a failing instantiation, a rejecting producing call or an unresolvable
dependency list, fails with FactoryInstantiationFailed wrapping the
underlying cause, and no options value is returned on such a path. -/
theorem factory_failure_wrapped (host : Host) (t₁ t₂ t₃ t₄ : TypeRef)
    (f₂ f₄ : IOptionsFactory) (fn : FactoryFn) (d : DepToken)
    (c₁ c₂ c₃ c₄ c₅ c₆ : String)
    (h₁ : host.lookup t₁ = Except.error c₁)
    (h₂ : host.lookup t₂ = Except.ok f₂)
    (h₂b : f₂.createThrottlerOptions = Except.error c₂)
    (h₃ : host.instantiate t₃ = Except.error c₃)
    (h₄ : host.instantiate t₄ = Except.ok f₄)
    (h₄b : f₄.createThrottlerOptions = Except.error c₄)
    (h₅ : host.resolveDep d = Except.error c₅)
    (h₆ : fn [] = Except.error c₆) :
    resolveAsync host { useExisting := some [t₁] } =
      Except.error (ResolveError.FactoryInstantiationFailed c₁) ∧
    resolveAsync host { useExisting := some [t₂] } =
      Except.error (ResolveError.FactoryInstantiationFailed c₂) ∧
    resolveAsync host { useClass := some t₃ } =
      Except.error (ResolveError.FactoryInstantiationFailed c₃) ∧
    resolveAsync host { useClass := some t₄ } =
      Except.error (ResolveError.FactoryInstantiationFailed c₄) ∧
    resolveAsync host { useFactory := some fn, inject := some [d] } =
      Except.error (ResolveError.FactoryInstantiationFailed c₅) ∧
    resolveAsync host { useFactory := some fn } =
      Except.error (ResolveError.FactoryInstantiationFailed c₆) ∧
    (∀ o, resolveAsync host { useExisting := some [t₁] } ≠ Except.ok o) := by
  refine ⟨?_, ?_, ?_, ?_, ?_, ?_, ?_⟩
  · simp [resolveAsync, h₁]
  · simp [resolveAsync, h₂, h₂b]
  · simp [resolveAsync, h₃]
  · simp [resolveAsync, h₄, h₄b]
  · simp [resolveAsync, resolveDeps, h₅]
  · simp [resolveAsync, resolveDeps, h₆]
  · intro o
    simp [resolveAsync, h₁]

/-- C5 witness: on a host whose lookups, instantiations and dependency
resolutions fail as keyed, each failing path wraps its cause. -/
theorem factory_failure_wrapped_witness :
    resolveAsync hostFail { useExisting := some [TypeRef.mk 1] } =
      Except.error (ResolveError.FactoryInstantiationFailed ("no provider")) ∧
    resolveAsync hostFail { useExisting := some [TypeRef.mk 2] } =
      Except.error (ResolveError.FactoryInstantiationFailed ("connection refused")) ∧
    resolveAsync hostFail { useClass := some (TypeRef.mk 3) } =
      Except.error (ResolveError.FactoryInstantiationFailed ("ctor threw")) ∧
    resolveAsync hostFail { useClass := some (TypeRef.mk 4) } =
      Except.error (ResolveError.FactoryInstantiationFailed ("connection refused")) ∧
    resolveAsync hostFail
        { useFactory := some (fun _ => Except.error ("factory threw"))
          inject := some [DepToken.mk 0] } =
      Except.error (ResolveError.FactoryInstantiationFailed ("dep missing")) ∧
    resolveAsync hostFail { useFactory := some (fun _ => Except.error ("factory threw")) } =
      Except.error (ResolveError.FactoryInstantiationFailed ("factory threw")) ∧
    (∀ o, resolveAsync hostFail { useExisting := some [TypeRef.mk 1] } ≠ Except.ok o) :=
  factory_failure_wrapped hostFail (TypeRef.mk 1) (TypeRef.mk 2) (TypeRef.mk 3)
    (TypeRef.mk 4) failingFactory failingFactory
    (fun _ => Except.error ("factory threw")) (DepToken.mk 0)
    ("no provider") ("connection refused") ("ctor threw") ("connection refused")
    ("dep missing") ("factory threw")
    rfl rfl rfl rfl rfl rfl rfl rfl

/-- The async resolver only ever succeeds with a value that passed
validation and therefore carries a recognized storage. -/
theorem resolveAsync_ok_storage (host : Host) (cfg : IModuleAsyncOptions)
    (o' : IOptions) (h : resolveAsync host cfg = Except.ok o') :
    isRecognizedStorage o'.storage = true := by
  unfold resolveAsync at h
  repeat' split at h
  all_goals
    first
      | exact Except.noConfusion h
      | (obtain ⟨he, _, _, hs⟩ := (validate_ok_iff _ _).mp h
         rw [he]
         exact hs)

/-- C6: resolution succeeds only with a storage value in the closed
two member set, and an options value with an unrecognized storage fails
validation with InvalidOptions. -/
theorem storage_closed_set (host : Host) (src : OptionsInput)
    (o o' : IOptions) :
    (resolve host src = Except.ok o' → isRecognizedStorage o'.storage = true) ∧
    (isRecognizedStorage o.storage = false →
      ∃ f, resolve host (OptionsInput.staticOpts o) =
        Except.error (ResolveError.InvalidOptions f)) := by
  constructor
  · intro h
    cases src with
    | staticOpts o0 =>
      have h' : validate o0 = Except.ok o' := h
      obtain ⟨he, _, _, hs⟩ := (validate_ok_iff o0 o').mp h'
      exact he ▸ hs
    | asyncOpts cfg => exact resolveAsync_ok_storage host cfg o' h
  · intro h
    exact validate_unrecognized o h

/-- C6 witness: scenario A resolves successfully and its storage is
recognized, while the same options under the storage string memcached fail
with InvalidOptions. -/
theorem storage_closed_set_witness :
    isRecognizedStorage scenarioA.storage = true ∧
    (∃ f, resolve emptyHost
        (OptionsInput.staticOpts { scenarioA with storage := "memcached" }) =
      Except.error (ResolveError.InvalidOptions f)) := by
  have h := storage_closed_set emptyHost (OptionsInput.staticOpts scenarioA)
    { scenarioA with storage := "memcached" } scenarioA
  exact ⟨h.1 rfl, h.2 rfl⟩

/-- C7: resolution is deterministic: one source yields at most one options
value, and re-running the pure resolution on the same source yields a
structurally equal result. -/
theorem resolve_deterministic (host : Host) (src : OptionsInput)
    (o₁ o₂ : IOptions)
    (h₁ : resolve host src = Except.ok o₁)
    (h₂ : resolve host src = Except.ok o₂) :
    o₁ = o₂ ∧ resolve host src = resolve host src := by
  have h := h₁.symm.trans h₂
  exact ⟨Except.ok.inj h, rfl⟩

/-- C7 witness: the two resolutions of static scenario A agree. -/
theorem resolve_deterministic_witness :
    scenarioA = scenarioA ∧
    resolve emptyHost (OptionsInput.staticOpts scenarioA) =
      resolve emptyHost (OptionsInput.staticOpts scenarioA) :=
  resolve_deterministic emptyHost (OptionsInput.staticOpts scenarioA)
    scenarioA scenarioA rfl rfl

/-- C8 counterexample: the useExisting field of the declared async options
shape (source line 183) is an array of factory types; a configuration
listing two factory types is representable, so the variant is not a
reference to one single already constructed factory. -/
theorem useExisting_single_handle_cex :
    ¬ referencesOneFactory
        { useExisting := some [TypeRef.mk 7, TypeRef.mk 8] } := by
  intro h
  have h2 := h [TypeRef.mk 7, TypeRef.mk 8] rfl
  simp at h2

/-- C8 amended: useExisting accepts an array of factory types of any
length, and the modelled resolver, given a sole useExisting variant,
obtains the options by invoking the producing call of the factory the
host supplies for the first listed type. -/
theorem useExisting_type_list (host : Host) (t : TypeRef)
    (rest : List TypeRef) (f : IOptionsFactory) (o : IOptions)
    (hl : host.lookup t = Except.ok f)
    (hc : f.createThrottlerOptions = Except.ok o)
    (hv : validate o = Except.ok o) :
    (∀ ts : List TypeRef,
      ({ useExisting := some ts } : IModuleAsyncOptions).useExisting = some ts) ∧
    resolveAsync host { useExisting := some (t :: rest) } = Except.ok o := by
  refine ⟨fun ts => rfl, ?_⟩
  simp [resolveAsync, hl, hc, hv]

/-- C8 amended witness: a two entry useExisting list is accepted and
resolves through the first listed type. -/
theorem useExisting_type_list_witness :
    resolveAsync hostGood
        { useExisting := some [TypeRef.mk 7, TypeRef.mk 8] } =
      Except.ok scenarioA :=
  (useExisting_type_list hostGood (TypeRef.mk 7) [TypeRef.mk 8] goodFactory
    scenarioA rfl rfl rfl).2

/-- C9: redis is a required field of the options shape and, under the
default storage, any present redis bag is permitted: resolution succeeds
whatever the redis field holds, provided the settings are positive. -/
theorem default_storage_redis_allowed (host : Host) (o : IOptions)
    (hs : o.storage = IStorage.DEFAULT)
    (hl : 0 < o.settings.limit) (ht : 0 < o.settings.ttl) :
    (∀ r : RedisConfig,
      resolve host (OptionsInput.staticOpts { o with redis := r }) =
        Except.ok { o with redis := r }) ∧
    resolve host (OptionsInput.staticOpts o) = Except.ok o := by
  have hrec : isRecognizedStorage o.storage = true := by
    simp [isRecognizedStorage, hs]
  constructor
  · intro r
    show validate { o with redis := r } = Except.ok { o with redis := r }
    exact (validate_ok_iff _ _).mpr ⟨rfl, ht, hl, hrec⟩
  · show validate o = Except.ok o
    exact (validate_ok_iff _ _).mpr ⟨rfl, ht, hl, hrec⟩

/-- C9 witness: scenario A under default storage resolves unchanged even
with a populated redis bag. -/
theorem default_storage_redis_allowed_witness :
    resolve emptyHost
        (OptionsInput.staticOpts
          { scenarioA with redis := { host := some ("localhost"), port := some 6379 } }) =
      Except.ok
        { scenarioA with redis := { host := some ("localhost"), port := some 6379 } } :=
  (default_storage_redis_allowed emptyHost scenarioA rfl (by decide) (by decide)).1
    { host := some ("localhost"), port := some 6379 }

end IThrottler
